import Mathlib

/- Shallow embedding of the Authomato session broker (authomato v0.0.3,
the main source file: request handlers handleOAuthStart,
handleOAuthCallback, handleOAuthPoll, the OAuthSession record with its
SetAccessToken / SetError methods, and the OAuthSessions store with
Get / Put / Add / Purge / AllocateId).

Modelling conventions:
- Timestamps are Unix seconds as Int (the source compares
  time.Time values only through their Unix() seconds).
- The Go map map[string]*OAuthSession is an association list
  List (String × Option OAuthSession); the inner Option is the pointer:
  none is a nil *OAuthSession stored under a present key (AllocateId
  inserts exactly such placeholders), a missing key is a missing key.
- A buffered chan bool of capacity 1 is its buffer contents, a
  List Bool of length at most 1.  A send appends when there is room and
  blocks forever otherwise; handlers that reach a blocking send are
  modelled as returning a distinguished blocked outcome.
- The external OAuth protocol client (github.com/mrjones/oauth) is a
  parameter: the begin step consumer.GetRequestTokenAndUrl is a function
  String -> Except String (RequestToken × String), the completion step
  Consumer.AuthorizeToken a function
  RequestToken -> String -> Except String AccessToken.
- Nil-pointer dereference (reading a field of a nil *OAuthSession) is a
  distinguished panic outcome.
- Important Go semantics kept faithfully: OAuthSession.SetAccessToken and
  OAuthSession.SetError are declared with a VALUE receiver
  (func (s OAuthSession) ...), so their field assignments mutate a copy of
  the receiver that is discarded when the method returns; the only effect
  observable through the pointer held by the store is the send on the
  shared Channel.  Likewise, in handleOAuthPoll the statement
  waitTime, err := strconv.Atoi(wait) declares a fresh inner waitTime that
  shadows the outer one, so the outer waitTime keeps its zero value in the
  numeric branch. -/

namespace Authomato

/-- Access credential pair delivered by the external protocol client
(oauth.AccessToken; the handlers read its Token and Secret fields). -/
structure AccessToken where
  token : String
  secret : String
deriving DecidableEq, Repr

/-- Temporary credential obtained at start time (oauth.RequestToken),
opaque to the broker: it is stored and passed back to the client. -/
structure RequestToken where
  token : String
  secret : String
deriving DecidableEq, Repr

/-- One authorization-flow session (struct OAuthSession).  The Consumer
pointer is opaque to the broker; it is modelled by the consumer name.
The Channel field holds the buffer contents of the capacity-1
chan bool created by makeOAuthSession. -/
structure OAuthSession where
  id : String
  startedAt : Int
  updatedAt : Int
  consumer : String
  requestToken : RequestToken
  accessToken : Option AccessToken
  error : Option String
  channel : List Bool
deriving DecidableEq, Repr

/-- Capacity of the completion-signal channel: make(chan bool, 1). -/
def chanCap : Nat := 1

/-- Send true on the capacity-1 channel: succeeds (appending to the
buffer) when there is room, otherwise the sender blocks forever (none). -/
def chanSend (buf : List Bool) : Option (List Bool) :=
  if buf.length < chanCap then some (buf ++ [true]) else none

/-- makeOAuthSession: fresh Pending session; StartedAt and UpdatedAt are
both the current time, no access token, no error, empty channel buffer. -/
def makeOAuthSession (sid : String) (consumer : String) (requestToken : RequestToken)
    (now : Int) : OAuthSession :=
  { id := sid
    startedAt := now
    updatedAt := now
    consumer := consumer
    requestToken := requestToken
    accessToken := none
    error := none
    channel := [] }

/-- Method func (s OAuthSession) SetAccessToken(accessToken).  The
receiver is a VALUE: receiverCopy below is the copy the method body
mutates (s.AccessToken, s.Error, s.UpdatedAt), and it is discarded when
the method returns.  The chan value is shared between the copy and the
stored session, so the send s.Channel <- true is the one effect visible
through the stored pointer.  Result: the stored session after the call,
none when the send blocks on a full buffer. -/
def OAuthSession.SetAccessToken (s : OAuthSession) (accessToken : AccessToken)
    (now : Int) : Option OAuthSession :=
  let receiverCopy : OAuthSession :=
    { s with accessToken := some accessToken, error := none, updatedAt := now }
  match chanSend receiverCopy.channel with
  | some buf => some { s with channel := buf }
  | none => none

/-- Method func (s OAuthSession) SetError(error): no-op on a nil error;
otherwise assigns s.Error and s.UpdatedAt on the receiver copy (value
receiver, discarded) and sends on the shared Channel. -/
def OAuthSession.SetError (s : OAuthSession) (e : Option String)
    (now : Int) : Option OAuthSession :=
  match e with
  | none => some s
  | some msg =>
    let receiverCopy : OAuthSession := { s with error := some msg, updatedAt := now }
    match chanSend receiverCopy.channel with
    | some buf => some { s with channel := buf }
    | none => none

/-- Method SetErrorf: fmt.Errorf never yields nil, so this is SetError
with a non-nil error. -/
def OAuthSession.SetErrorf (s : OAuthSession) (msg : String) (now : Int) :
    Option OAuthSession :=
  OAuthSession.SetError s (some msg) now

/-- The session store map[string]*OAuthSession: association list keyed by
session id; the value none is a stored nil pointer (the placeholder that
AllocateId inserts). -/
abbrev OAuthSessions := List (String × Option OAuthSession)

/-- Method Get: the two-result map read v, ok := s.m[k].  A present key
with a nil pointer yields (none, true); a missing key yields
(none, false). -/
def OAuthSessions.Get (s : OAuthSessions) (k : String) :
    Option OAuthSession × Bool :=
  match List.lookup k s with
  | some v => (v, true)
  | none => (none, false)

/-- Method Put: map assignment s.m[k] = v (replace an existing entry,
insert otherwise). -/
def OAuthSessions.Put : OAuthSessions → String → Option OAuthSession → OAuthSessions
  | [], k, v => [(k, v)]
  | (k', v') :: rest, k, v =>
    if k' = k then (k, v) :: rest else (k', v') :: OAuthSessions.Put rest k v

/-- Method Add: insert only if the key is absent; reports whether the
insertion happened. -/
def OAuthSessions.Add (s : OAuthSessions) (k : String) (v : Option OAuthSession) :
    OAuthSessions × Bool :=
  match List.lookup k s with
  | some _ => (s, false)
  | none => (s ++ [(k, v)], true)

/-- Purge's maximum idle age in seconds (const maxAge = 3600). -/
def maxAge : Int := 3600

/-- The retention test of Purge: the source collects every key whose
session satisfies now - v.UpdatedAt >= maxAge and deletes those keys, so
an entry survives exactly when its age is below maxAge.  A nil entry
never reaches this test: the collection loop panics on it first. -/
def purgeKeeps (now : Int) (e : String × Option OAuthSession) : Bool :=
  match e.2 with
  | some v => decide (now - v.updatedAt < maxAge)
  | none => false

/-- Method Purge: collects every key whose session satisfies
now - v.UpdatedAt >= maxAge, then deletes those keys.  The collection
loop reads v.UpdatedAt on every stored pointer, so a stored nil pointer
is dereferenced and the method panics before deleting anything (none). -/
def OAuthSessions.Purge (s : OAuthSessions) (now : Int) : Option OAuthSessions :=
  if s.any (fun e => e.2.isNone) then none
  else some (s.filter (purgeKeeps now))

/-- Alphabet of session identifiers: the 52 ASCII letters (the local
const chars of AllocateId). -/
def sidChars : String := "abcdefghijklmnopqrstuvwxyzABCDEFGHIJKLMNOPQRSTUVWXYZ"

/-- Length of session identifiers (the local const length of AllocateId). -/
def sidLength : Nat := 24

/-- randomString(length, chars): one character per index, each drawn by
rand.Intn(len(chars)).  The generator is an oracle r; rand.Intn(n)
returns a value in [0, n), modelled as r i % n (every possible output
sequence of Intn is some r, and no impossible one is). -/
def randomString (length : Nat) (chars : String) (r : Nat → Nat) : String :=
  String.mk ((List.range length).map fun i =>
    chars.data.getD (r i % chars.data.length) 'a')

/-- Method AllocateId: repeatedly draw a candidate id and try
Add(sid, nil) until the insert-if-absent succeeds, then return the id.
One oracle per loop iteration; the unbounded source loop is modelled by
the supply list (none = the loop has not yet succeeded within the
supplied draws). -/
def OAuthSessions.AllocateId (s : OAuthSessions) :
    List (Nat → Nat) → Option (String × OAuthSessions)
  | [] => none
  | r :: rest =>
    let sid := randomString sidLength sidChars r
    match OAuthSessions.Add s sid none with
    | (s', true) => some (sid, s')
    | (_, false) => OAuthSessions.AllocateId s rest

/-- HTTP outcome of a handler: ok is a 200 written by fmt.Fprintf with
the given body; error is http.Error(w, msg, status). -/
inductive HttpResponse where
  | ok (body : String)
  | error (msg : String) (status : Nat)
deriving DecidableEq, Repr

/-- Outcome of handleOAuthCallback: a response together with the store
after the call, or the goroutine blocking forever on a channel send, or
a nil-pointer-dereference panic. -/
inductive HandlerResult where
  | resp (sessions : OAuthSessions) (response : HttpResponse)
  | blocked
  | panicNilDeref
deriving DecidableEq, Repr

/-- handleOAuthStart: validate the app parameter, look up the consumer,
allocate a session id (which reserves it with a nil placeholder), run
the external begin step, and on success store the fresh Pending session
and answer with the id and the authorization URL.  On begin-step failure
the handler answers 500 and returns at once: the nil placeholder stays
in the store.  The consumers catalog is modelled by the list of known
consumer names. -/
def handleOAuthStart (consumers : List String)
    (getRequestTokenAndUrl : String → Except String (RequestToken × String))
    (serverUrl : String) (sessions : OAuthSessions) (supply : List (Nat → Nat))
    (app : String) (now : Int) : Option (OAuthSessions × HttpResponse) :=
  if app.length = 0 then
    some (sessions, HttpResponse.error "'app' paramater missing" 400)
  else if consumers.contains app = false then
    some (sessions, HttpResponse.error ("invalid app: " ++ app) 404)
  else
    match OAuthSessions.AllocateId sessions supply with
    | none => none
    | some (sid, sessions1) =>
      match getRequestTokenAndUrl (serverUrl ++ "/oauth/callback?sid=" ++ sid) with
      | Except.error e => some (sessions1, HttpResponse.error e 500)
      | Except.ok (requestToken, url) =>
        some (OAuthSessions.Put sessions1 sid
                (some (makeOAuthSession sid app requestToken now)),
              HttpResponse.ok (sid ++ " " ++ url))

/-- handleOAuthCallback: validate sid, look the session up (missing key
is 404), then either record a missing verifier through SetErrorf and
answer 403, or run the external completion step and record its outcome
through SetError / SetAccessToken (500 on upstream failure, bare 200 on
success).  Both branches dereference the session pointer (SetErrorf
respectively session.Consumer), so a stored nil placeholder panics.  In
the source the channel send mutates the pointed-to buffer in place; here
the store is rewritten with the post-send session, the same net store. -/
def handleOAuthCallback
    (authorizeToken : RequestToken → String → Except String AccessToken)
    (sessions : OAuthSessions) (sid code : String) (now : Int) : HandlerResult :=
  if sid.length = 0 then
    HandlerResult.resp sessions (HttpResponse.error "'sid' missing" 400)
  else
    match OAuthSessions.Get sessions sid with
    | (_, false) =>
      HandlerResult.resp sessions
        (HttpResponse.error ("invalid session ID: " ++ sid) 404)
    | (none, true) => HandlerResult.panicNilDeref
    | (some session, true) =>
      if code.length = 0 then
        match OAuthSession.SetErrorf session
            "oauth_verifier not found in callback request" now with
        | none => HandlerResult.blocked
        | some session' =>
          HandlerResult.resp (OAuthSessions.Put sessions sid (some session'))
            (HttpResponse.error "no oauth_verifier found" 403)
      else
        match authorizeToken session.requestToken code with
        | Except.error e =>
          match OAuthSession.SetError session
              (some ("cannot obtain access token: " ++ e)) now with
          | none => HandlerResult.blocked
          | some session' =>
            HandlerResult.resp (OAuthSessions.Put sessions sid (some session'))
              (HttpResponse.error "cannot obtain access token" 500)
        | Except.ok accessToken =>
          match OAuthSession.SetAccessToken session accessToken now with
          | none => HandlerResult.blocked
          | some session' =>
            HandlerResult.resp (OAuthSessions.Put sessions sid (some session'))
              (HttpResponse.ok "")

/-- Largest int64, the waitTime used for wait equal to true. -/
def maxInt64 : Int := 9223372036854775807

/-- Decimal digit run for atoi: rejects an empty run and any non-digit,
otherwise accumulates the base-10 value. -/
def atoiDigits (cs : List Char) : Option Nat :=
  if cs.isEmpty then none
  else if cs.all Char.isDigit then
    some (cs.foldl (fun n c => n * 10 + (c.toNat - 48)) 0)
  else none

/-- strconv.Atoi: an optional single leading sign followed by one or
more decimal digits; everything else is a parse error. -/
def atoi (s : String) : Option Int :=
  match s.data with
  | [] => none
  | c :: rest =>
    if c = '+' then (atoiDigits rest).map (fun n => (n : Int))
    else if c = '-' then (atoiDigits rest).map (fun n => -(n : Int))
    else (atoiDigits (c :: rest)).map (fun n => (n : Int))

/-- The wait-specification handling of handleOAuthPoll: the value of the
OUTER waitTime variable after the if / else chain, or the invalid value
answered with 400.  Absent means zero; the literal true means MaxInt64;
a numeric value is parsed and validated by strconv.Atoi, but the source
writes waitTime, err := strconv.Atoi(wait), declaring a fresh inner
waitTime that shadows the outer one, so on a valid non-negative number
the outer waitTime keeps its zero value. -/
def parseWait (wait : String) : Except String Int :=
  if wait.length = 0 then Except.ok 0
  else if wait = "true" then Except.ok maxInt64
  else
    match atoi wait with
    | none => Except.error wait
    | some n => if n < 0 then Except.error wait else Except.ok 0

/-- One iteration of the poll loop: answer the access token when set,
else the error when set, else 100 Continue when now - start has reached
waitTime, else block on a channel receive. -/
inductive PollStep where
  | done (response : HttpResponse)
  | recvChannel
deriving DecidableEq, Repr

/-- Body of the for loop of handleOAuthPoll, evaluated with the loop
entry time start and the current time now. -/
def pollIteration (session : OAuthSession) (start now waitTime : Int) : PollStep :=
  match session.accessToken with
  | some tok => PollStep.done (HttpResponse.ok (tok.token ++ " " ++ tok.secret))
  | none =>
    match session.error with
    | some e => PollStep.done (HttpResponse.ok ("error: " ++ e))
    | none =>
      if now - start ≥ waitTime then PollStep.done (HttpResponse.error "" 100)
      else PollStep.recvChannel

/-- Outcome of handleOAuthPoll up to its first potential suspension: a
response (poll mutates no session state before that point), or reaching
the channel receive, or the nil-pointer panic of reading
session.AccessToken on a stored nil placeholder. -/
inductive PollResult where
  | resp (response : HttpResponse)
  | blockedOnChannel
  | panicNilDeref
deriving DecidableEq, Repr

/-- handleOAuthPoll: validate sid, look the session up (missing key is
404), interpret the wait specification (invalid is 400, checked before
the session pointer is ever dereferenced), then run the first iteration
of the poll loop at the arrival instant (start and now coincide there). -/
def handleOAuthPoll (sessions : OAuthSessions) (sid wait : String)
    (arrival : Int) : PollResult :=
  if sid.length = 0 then
    PollResult.resp (HttpResponse.error "'sid' missing" 400)
  else
    match OAuthSessions.Get sessions sid with
    | (_, false) =>
      PollResult.resp (HttpResponse.error ("invalid session ID: " ++ sid) 404)
    | (sessionPtr, true) =>
      match parseWait wait with
      | Except.error w =>
        PollResult.resp (HttpResponse.error ("invalid wait value: " ++ w) 400)
      | Except.ok waitTime =>
        match sessionPtr with
        | none => PollResult.panicNilDeref
        | some session =>
          match pollIteration session arrival arrival waitTime with
          | PollStep.done r => PollResult.resp r
          | PollStep.recvChannel => PollResult.blockedOnChannel

/- Wakeup model for concurrent pollers.  A poller doing a long poll
blocks at the receive from session.Channel; a resolution deposits one
signal in the capacity-1 buffer.  The state below counts the signals in
the buffer, the pollers still blocked at the receive, and the pollers
whose receive has completed; one step is one completed receive, which
consumes one buffered signal and unblocks one poller.  This is exactly
the semantics of the source's single make(chan bool, 1) channel shared
by all pollers of a session. -/

/-- Pollers sharing one session channel: buffered signals, pollers still
blocked at the receive, pollers already woken. -/
structure PollerWaitState where
  buf : Nat
  waiting : Nat
  woken : Nat
deriving DecidableEq, Repr

/-- One completed channel receive: possible only while a signal is
buffered and a poller is blocked; it consumes the signal and wakes that
one poller. -/
def chanRecvStep (st : PollerWaitState) : PollerWaitState :=
  if 0 < st.buf ∧ 0 < st.waiting then
    { buf := st.buf - 1, waiting := st.waiting - 1, woken := st.woken + 1 }
  else st

/-- Any number of receive steps in sequence. -/
def iterRecv : Nat → PollerWaitState → PollerWaitState
  | 0, st => st
  | k + 1, st => iterRecv k (chanRecvStep st)

/- Concrete fixtures: the stubbed external protocol client and the runs
the claims evaluate the handlers on. -/

/-- Stubbed temporary credential returned by the begin step. -/
def demoRequestToken : RequestToken := { token := "rt", secret := "rts" }

/-- Stubbed begin step that succeeds with a fixed authorization URL. -/
def beginOk : String → Except String (RequestToken × String) :=
  fun _ => Except.ok (demoRequestToken, "http://provider/authorize")

/-- Stubbed begin step that fails upstream. -/
def beginFail : String → Except String (RequestToken × String) :=
  fun _ => Except.error "upstream begin failure"

/-- Stubbed access credential pair (tok, sec). -/
def demoAccessToken : AccessToken := { token := "tok", secret := "sec" }

/-- Stubbed completion step that succeeds with demoAccessToken. -/
def authorizeOk : RequestToken → String → Except String AccessToken :=
  fun _ _ => Except.ok demoAccessToken

/-- A random oracle; every draw is 0, so the generated id is 24 letters a. -/
def r0 : Nat → Nat := fun _ => 0

/-- A random oracle; every draw is 1, so the generated id is 24 letters b. -/
def r1 : Nat → Nat := fun _ => 1

/-- The id allocated from oracle r0. -/
def sid0 : String := randomString sidLength sidChars r0

/-- The Pending session stored by a successful start at time 1000. -/
def pendingSession0 : OAuthSession :=
  makeOAuthSession sid0 "demo" demoRequestToken 1000

/-- The store after a successful start. -/
def startStore : OAuthSessions := [(sid0, some pendingSession0)]

/-- The stored session after a callback ran one of the value-receiver
setters on it: only the shared channel changed; the result fields of the
stored session are still unset. -/
def signaledSession0 : OAuthSession := { pendingSession0 with channel := [true] }

/-- The store after the first callback. -/
def callbackStore : OAuthSessions := [(sid0, some signaledSession0)]

/-- A session a full hour old at purge time. -/
def staleSession : OAuthSession := makeOAuthSession "oldsid" "demo" demoRequestToken 0

/-- A session created at purge time. -/
def freshSession : OAuthSession := makeOAuthSession "newsid" "demo" demoRequestToken 5000

/-- A two-session store exercising both sides of the eviction test. -/
def agedStore : OAuthSessions :=
  [("oldsid", some staleSession), ("newsid", some freshSession)]

/-- The id allocated from oracle r1. -/
def sid1 : String := randomString sidLength sidChars r1

/-- A store already holding the first candidate id, forcing AllocateId
to resample. -/
def collisionStore : OAuthSessions := [(sid0, none)]

/- Helper lemmas about the store operations. -/

/-- A key replaced or inserted by Put is what a subsequent lookup finds:
Put rewrites the first occurrence of the key and lookup reads the first
occurrence. -/
theorem lookup_Put_self (s : OAuthSessions) (k : String) (v : Option OAuthSession) :
    List.lookup k (OAuthSessions.Put s k v) = some v := by
  induction s with
  | nil => simp [OAuthSessions.Put]
  | cons e rest ih =>
    obtain ⟨k', v'⟩ := e
    by_cases h : k' = k
    · subst h
      simp [OAuthSessions.Put]
    · rw [OAuthSessions.Put, if_neg h, List.lookup_cons,
        beq_false_of_ne (Ne.symm h)]
      exact ih

/-- A key absent from a prefix is looked up in the suffix. -/
theorem lookup_append_of_none (s t : OAuthSessions) (k : String)
    (h : List.lookup k s = none) :
    List.lookup k (s ++ t) = List.lookup k t := by
  rw [List.lookup_append, h, Option.none_or]

/-- A key with no entry has no entry after a filter either. -/
theorem lookup_filter_none (s : OAuthSessions) (k : String)
    (p : String × Option OAuthSession → Bool)
    (h : List.lookup k s = none) :
    List.lookup k (s.filter p) = none := by
  rw [List.lookup_eq_none_iff] at h ⊢
  intro q hq
  exact h q (List.mem_of_mem_filter hq)

/-- A key absent from the key list has no entry. -/
theorem lookup_none_of_not_mem_keys (s : OAuthSessions) (k : String)
    (h : k ∉ s.map Prod.fst) : List.lookup k s = none := by
  rw [List.lookup_eq_none_iff]
  intro q hq
  have hmem : q.1 ∈ s.map Prod.fst := List.mem_map_of_mem Prod.fst hq
  simp only [bne_iff_ne, ne_eq]
  intro hkq
  exact h (by rw [hkq]; exact hmem)

/-- randomString yields exactly the requested number of characters. -/
theorem randomString_length (n : Nat) (chars : String) (r : Nat → Nat) :
    (randomString n chars r).length = n := by
  simp [randomString]

/-- An indexed read with a default that itself lies in the list stays in
the list. -/
theorem getD_mem_of_default_mem {α : Type} (l : List α) (i : Nat) (d : α)
    (hd : d ∈ l) : l.getD i d ∈ l := by
  rw [List.getD_eq_getElem?_getD]
  rcases h : l[i]? with _ | x
  · simpa using hd
  · simpa using List.getElem?_mem h

/-- Every character of a randomString is drawn from the alphabet, as long
as the fallback character of the embedding is itself in the alphabet. -/
theorem randomString_chars (n : Nat) (chars : String) (r : Nat → Nat)
    (hd : 'a' ∈ chars.data) :
    ∀ c ∈ (randomString n chars r).data, c ∈ chars.data := by
  intro c hc
  simp only [randomString, List.mem_map] at hc
  obtain ⟨i, _, rfl⟩ := hc
  exact getD_mem_of_default_mem chars.data _ 'a' hd

/-- What a successful AllocateId did: the returned id was absent from
the store at allocation, the store gained exactly the nil reservation
for it, and the id is the first candidate of the oracle supply whose
lookup found nothing, every earlier candidate having collided. -/
theorem allocateId_spec (s : OAuthSessions) (supply : List (Nat → Nat))
    (sid : String) (s' : OAuthSessions)
    (h : OAuthSessions.AllocateId s supply = some (sid, s')) :
    List.lookup sid s = none ∧ s' = s ++ [(sid, none)] ∧
    ∃ pre r post, supply = pre ++ r :: post ∧
      sid = randomString sidLength sidChars r ∧
      ∀ r' ∈ pre, (List.lookup (randomString sidLength sidChars r') s).isSome := by
  induction supply with
  | nil => simp [OAuthSessions.AllocateId] at h
  | cons r rest ih =>
    rcases hl : List.lookup (randomString sidLength sidChars r) s with _ | v
    · simp only [OAuthSessions.AllocateId, OAuthSessions.Add, hl,
        Option.some.injEq, Prod.mk.injEq] at h
      obtain ⟨rfl, rfl⟩ := h
      exact ⟨hl, rfl, [], r, rest, rfl, rfl, by simp⟩
    · simp only [OAuthSessions.AllocateId, OAuthSessions.Add, hl] at h
      obtain ⟨h1, h2, pre, rg, post, hsup, hsid, hpre⟩ := ih h
      refine ⟨h1, h2, r :: pre, rg, post, by simp [hsup], hsid, ?_⟩
      intro rp hrp
      rcases List.mem_cons.mp hrp with hrp | hrp
      · subst hrp
        simp [hl]
      · exact hpre rp hrp

/-- A completed receive conserves woken pollers plus buffered signals:
each wakeup consumes exactly one signal. -/
theorem chanRecvStep_woken_buf (st : PollerWaitState) :
    (chanRecvStep st).woken + (chanRecvStep st).buf = st.woken + st.buf := by
  unfold chanRecvStep
  by_cases h : 0 < st.buf ∧ 0 < st.waiting
  · rw [if_pos h]
    show st.woken + 1 + (st.buf - 1) = st.woken + st.buf
    omega
  · rw [if_neg h]

/-- A completed receive conserves woken plus still-waiting pollers: a
wakeup moves one poller from waiting to woken. -/
theorem chanRecvStep_woken_waiting (st : PollerWaitState) :
    (chanRecvStep st).woken + (chanRecvStep st).waiting = st.woken + st.waiting := by
  unfold chanRecvStep
  by_cases h : 0 < st.buf ∧ 0 < st.waiting
  · rw [if_pos h]
    show st.woken + 1 + (st.waiting - 1) = st.woken + st.waiting
    omega
  · rw [if_neg h]

/-- Signal conservation over any number of receive steps. -/
theorem iterRecv_woken_buf (k : Nat) (st : PollerWaitState) :
    (iterRecv k st).woken + (iterRecv k st).buf = st.woken + st.buf := by
  induction k generalizing st with
  | zero => rfl
  | succ n ih =>
    show (iterRecv n (chanRecvStep st)).woken + (iterRecv n (chanRecvStep st)).buf
        = st.woken + st.buf
    rw [ih (chanRecvStep st), chanRecvStep_woken_buf]

/-- Poller conservation over any number of receive steps. -/
theorem iterRecv_woken_waiting (k : Nat) (st : PollerWaitState) :
    (iterRecv k st).woken + (iterRecv k st).waiting = st.woken + st.waiting := by
  induction k generalizing st with
  | zero => rfl
  | succ n ih =>
    show (iterRecv n (chanRecvStep st)).woken + (iterRecv n (chanRecvStep st)).waiting
        = st.woken + st.waiting
    rw [ih (chanRecvStep st), chanRecvStep_woken_waiting]

/-- What the Purge filter does to one stored session under unique keys:
an entry failing the retention test disappears, one passing it survives
unchanged. -/
theorem lookup_filter_purgeKeeps (st : OAuthSessions) (now : Int) (sid : String)
    (sess : OAuthSession)
    (hnodup : (st.map Prod.fst).Nodup)
    (hlook : List.lookup sid st = some (some sess)) :
    (purgeKeeps now (sid, some sess) = false →
        List.lookup sid (st.filter (purgeKeeps now)) = none)
    ∧ (purgeKeeps now (sid, some sess) = true →
        List.lookup sid (st.filter (purgeKeeps now)) = some (some sess)) := by
  induction st with
  | nil => simp at hlook
  | cons e rest ih =>
    obtain ⟨k, v⟩ := e
    simp only [List.map_cons, List.nodup_cons] at hnodup
    by_cases hk : sid = k
    · subst hk
      have hv : v = some sess := by simpa using hlook
      subst hv
      constructor
      · intro hkeep
        rw [List.filter_cons, if_neg (by simp [hkeep])]
        exact lookup_filter_none rest sid _
          (lookup_none_of_not_mem_keys rest sid hnodup.1)
      · intro hkeep
        rw [List.filter_cons, if_pos hkeep]
        exact List.lookup_cons_self
    · have hlook' : List.lookup sid rest = some (some sess) := by
        rwa [List.lookup_cons, beq_false_of_ne hk] at hlook
      have ihr := ih hnodup.2 hlook'
      have hskip : ∀ l : OAuthSessions,
          List.lookup sid ((k, v) :: l) = List.lookup sid l := by
        intro l
        rw [List.lookup_cons, beq_false_of_ne hk]
      constructor <;> intro hkeep
      · rw [List.filter_cons]
        by_cases hfc : purgeKeeps now (k, v)
        · rw [if_pos hfc, hskip]
          exact ihr.1 hkeep
        · rw [if_neg hfc]
          exact ihr.1 hkeep
      · rw [List.filter_cons]
        by_cases hfc : purgeKeeps now (k, v)
        · rw [if_pos hfc, hskip]
          exact ihr.2 hkeep
        · rw [if_neg hfc]
          exact ihr.2 hkeep

/- The claims. -/

/-- C1.  The claimed end-to-end flow fails on the code: start("demo")
returns the id and the authorization URL, and the callback whose
completion step returns the credential pair (tok, sec) answers 200 — but
SetAccessToken's value receiver mutates a discarded copy, so the stored
session keeps AccessToken nil and every subsequent poll answers
100 Continue, never the 200 body "tok sec" the claim (and the README)
promise.  This theorem evaluates the code on exactly that run. -/
theorem poll_after_resolved_callback_answers_continue :
    handleOAuthStart ["demo"] beginOk "http://srv" [] [r0] "demo" 1000 =
      some (startStore, HttpResponse.ok (sid0 ++ " http://provider/authorize"))
    ∧ handleOAuthCallback authorizeOk startStore sid0 "abc" 2000 =
      HandlerResult.resp callbackStore (HttpResponse.ok "")
    ∧ handleOAuthPoll callbackStore sid0 "" 3000 =
      PollResult.resp (HttpResponse.error "" 100)
    ∧ handleOAuthPoll callbackStore sid0 "" 3000 ≠
      PollResult.resp (HttpResponse.ok "tok sec") := by
  decide

/-- C2 counterexample.  Duplicate callback delivery at a concrete input:
the first call answers 200, but afterwards the stored session still has
neither result field set (so the stored result does not match the first
call's Authorized outcome), and the second call does not yield any
StaleResolution signal — it re-runs the completion step and then blocks
forever sending on the already-full capacity-1 channel. -/
theorem second_callback_no_stale_resolution :
    handleOAuthCallback authorizeOk startStore sid0 "abc" 2000 =
      HandlerResult.resp callbackStore (HttpResponse.ok "")
    ∧ handleOAuthCallback authorizeOk callbackStore sid0 "abc" 2500 =
      HandlerResult.blocked
    ∧ signaledSession0.accessToken = none
    ∧ signaledSession0.error = none := by
  decide

/-- C2 amended.  handleOAuthCallback has no duplicate-delivery guard and
the code defines no StaleResolution outcome: for any pending session
(empty channel buffer) whose completion step succeeds, the first call
answers 200 while leaving the stored session's accessToken and error
fields exactly as they were (the setter's value receiver mutates a
copy), only the channel now holds the completion signal; a second call
for the same id re-runs the completion step and blocks forever on the
full channel, mutating nothing. -/
theorem handleOAuthCallback_duplicate_delivery
    (authorizeToken : RequestToken → String → Except String AccessToken)
    (sessions : OAuthSessions) (sid code : String) (session : OAuthSession)
    (tok : AccessToken) (t1 t2 : Int)
    (hsid : ¬ sid.length = 0) (hcode : ¬ code.length = 0)
    (hget : OAuthSessions.Get sessions sid = (some session, true))
    (hchan : session.channel = [])
    (hauth : authorizeToken session.requestToken code = Except.ok tok) :
    handleOAuthCallback authorizeToken sessions sid code t1 =
      HandlerResult.resp
        (OAuthSessions.Put sessions sid (some { session with channel := [true] }))
        (HttpResponse.ok "")
    ∧ ({ session with channel := [true] } : OAuthSession).accessToken =
        session.accessToken
    ∧ ({ session with channel := [true] } : OAuthSession).error = session.error
    ∧ handleOAuthCallback authorizeToken
        (OAuthSessions.Put sessions sid (some { session with channel := [true] }))
        sid code t2 = HandlerResult.blocked := by
  have hget2 : OAuthSessions.Get
      (OAuthSessions.Put sessions sid (some { session with channel := [true] })) sid
      = (some { session with channel := [true] }, true) := by
    unfold OAuthSessions.Get
    rw [lookup_Put_self]
  have hauth2 : authorizeToken
      ({ session with channel := [true] } : OAuthSession).requestToken code
      = Except.ok tok := hauth
  refine ⟨?_, rfl, rfl, ?_⟩
  · simp only [handleOAuthCallback, if_neg hsid, hget, if_neg hcode, hauth,
      OAuthSession.SetAccessToken, chanSend, chanCap, hchan]
    simp
  · simp only [handleOAuthCallback, if_neg hsid, hget2, if_neg hcode, hauth2,
      OAuthSession.SetAccessToken, chanSend, chanCap]
    simp

/-- C2 amended, witness: the duplicate delivery on the concrete run. -/
theorem handleOAuthCallback_duplicate_delivery_witness :
    handleOAuthCallback authorizeOk callbackStore sid0 "abc" 2500 =
      HandlerResult.blocked := by
  have h := handleOAuthCallback_duplicate_delivery authorizeOk startStore sid0 "abc"
    pendingSession0 demoAccessToken 2000 2500 (by decide) (by decide) (by decide)
    rfl rfl
  have e : OAuthSessions.Put startStore sid0
      (some { pendingSession0 with channel := [true] }) = callbackStore := by decide
  rw [e] at h
  exact h.2.2.2

/-- C3.  The claimed wait=N deadline fails on the code: the numeric
branch of handleOAuthPoll writes waitTime, err := strconv.Atoi(wait),
declaring a fresh inner waitTime, so the outer waitTime stays 0 and a
poll with wait equal to 5 on an unresolved session answers 100 Continue
at the arrival instant instead of blocking for five seconds.  This
theorem evaluates the code at that failing input. -/
theorem poll_wait_seconds_answers_continue_at_arrival :
    parseWait "5" = Except.ok 0
    ∧ handleOAuthPoll startStore sid0 "5" 1000 =
      PollResult.resp (HttpResponse.error "" 100) := by
  exact ⟨rfl, by decide⟩

/-- C4.  The claimed no-lost-wakeup property fails on the code: resolving
a pending session deposits exactly one signal in the capacity-1 channel
(SetAccessToken on the empty buffer yields the buffer holding one value),
and with two pollers blocked at the receive on that same channel, any
number of receive steps wakes at most one of them — at least one poller
stays blocked forever. -/
theorem resolution_wakes_at_most_one_of_two_pollers :
    OAuthSession.SetAccessToken pendingSession0 demoAccessToken 2000 =
      some signaledSession0
    ∧ signaledSession0.channel = [true]
    ∧ ∀ k : Nat,
        (iterRecv k { buf := 1, waiting := 2, woken := 0 }).woken ≤ 1
        ∧ 1 ≤ (iterRecv k { buf := 1, waiting := 2, woken := 0 }).waiting := by
  refine ⟨by decide, rfl, ?_⟩
  intro k
  have h1 : (iterRecv k { buf := 1, waiting := 2, woken := 0 }).woken
      + (iterRecv k { buf := 1, waiting := 2, woken := 0 }).buf = 1 := by
    simpa using iterRecv_woken_buf k { buf := 1, waiting := 2, woken := 0 }
  have h2 : (iterRecv k { buf := 1, waiting := 2, woken := 0 }).woken
      + (iterRecv k { buf := 1, waiting := 2, woken := 0 }).waiting = 2 := by
    simpa using iterRecv_woken_waiting k { buf := 1, waiting := 2, woken := 0 }
  constructor <;> omega

/-- C5.  Partially as claimed, but the stored Failed state is lost: a
callback with the verifier missing answers 403 to its caller, yet
SetErrorf's value receiver mutates a discarded copy, so the stored
session's Error stays nil and a subsequent poll answers 100 Continue
instead of the claimed Failed result.  This theorem evaluates the code
at that failing input. -/
theorem missing_verifier_answers_forbidden_but_stores_no_error :
    handleOAuthCallback authorizeOk startStore sid0 "" 2000 =
      HandlerResult.resp callbackStore (HttpResponse.error "no oauth_verifier found" 403)
    ∧ signaledSession0.error = none
    ∧ signaledSession0.accessToken = none
    ∧ handleOAuthPoll callbackStore sid0 "" 3000 =
      PollResult.resp (HttpResponse.error "" 100)
    ∧ handleOAuthPoll callbackStore sid0 "" 3000 ≠
      PollResult.resp
        (HttpResponse.ok "error: oauth_verifier not found in callback request") := by
  decide

/-- C6.  The claimed cleanup fails on the code: when the begin step fails
during start, the handler answers 500 and returns at once, and the nil
placeholder that AllocateId reserved is still present in the store — the
store is not as if the id had never been reserved.  This theorem
evaluates the code at that failing input. -/
theorem failed_start_retains_nil_placeholder :
    handleOAuthStart ["demo"] beginFail "http://srv" [] [r0] "demo" 1000 =
      some ([(sid0, none)], HttpResponse.error "upstream begin failure" 500)
    ∧ OAuthSessions.Get [(sid0, (none : Option OAuthSession))] sid0 =
      (none, true) := by
  decide

/-- C7.  After a start whose begin step fails, the freshly reserved id
still maps to a nil session: Get reports present-with-nil, a poll or a
callback for that id passes the 404 check and then dereferences the nil
pointer (panic), and a Purge pass over the store panics on the nil entry
as well. -/
theorem nil_placeholder_panics_poll_callback_purge
    (consumers : List String)
    (beginStep : String → Except String (RequestToken × String))
    (authorizeToken : RequestToken → String → Except String AccessToken)
    (serverUrl app e code : String) (sessions s1 : OAuthSessions)
    (supply : List (Nat → Nat)) (sid : String) (now t tc tp : Int)
    (happ : ¬ app.length = 0)
    (hcons : consumers.contains app = true)
    (halloc : OAuthSessions.AllocateId sessions supply = some (sid, s1))
    (hbegin : beginStep (serverUrl ++ "/oauth/callback?sid=" ++ sid) =
      Except.error e) :
    handleOAuthStart consumers beginStep serverUrl sessions supply app now =
      some (s1, HttpResponse.error e 500)
    ∧ List.lookup sid s1 = some none
    ∧ handleOAuthPoll s1 sid "" t = PollResult.panicNilDeref
    ∧ handleOAuthCallback authorizeToken s1 sid code tc = HandlerResult.panicNilDeref
    ∧ OAuthSessions.Purge s1 tp = none := by
  obtain ⟨hfresh, hs1, pre, rg, post, hsup, hsid, hpre⟩ :=
    allocateId_spec sessions supply sid s1 halloc
  have hlen : sid.length = sidLength := by
    rw [hsid]
    exact randomString_length ..
  have hsidne : ¬ sid.length = 0 := by
    rw [hlen]
    decide
  have hlook : List.lookup sid s1 = some none := by
    rw [hs1, lookup_append_of_none _ _ _ hfresh]
    simp
  refine ⟨?_, hlook, ?_, ?_, ?_⟩
  · simp only [handleOAuthStart, if_neg happ, hcons, halloc, hbegin]
    simp
  · simp only [handleOAuthPoll, if_neg hsidne, OAuthSessions.Get, hlook, parseWait]
    simp
  · simp only [handleOAuthCallback, if_neg hsidne, OAuthSessions.Get, hlook]
  · rw [hs1]
    simp [OAuthSessions.Purge]

/-- C7 witness: the failed concrete start and the three nil-pointer
effects on its store. -/
theorem nil_placeholder_panics_witness :
    handleOAuthPoll [(sid0, none)] sid0 "" 2000 = PollResult.panicNilDeref
    ∧ OAuthSessions.Purge [(sid0, none)] 3000 = none := by
  have h := nil_placeholder_panics_poll_callback_purge ["demo"] beginFail authorizeOk
    "http://srv" "demo" "upstream begin failure" "abc" [] [(sid0, none)] [r0] sid0
    1000 2000 2500 3000 (by decide) (by decide) (by decide) rfl
  exact ⟨h.2.2.1, h.2.2.2.2⟩

/-- C8.  One completed eviction pass removes exactly the too-old sessions:
whenever Purge succeeds (no nil entry, so no panic) on a store with
unique keys, every stored session strictly older than maxAge relative to
now is absent afterwards, and every session strictly within the age is
still present unchanged. -/
theorem purge_evicts_old_retains_young (st st' : OAuthSessions) (now : Int)
    (hnodup : (st.map Prod.fst).Nodup)
    (h : OAuthSessions.Purge st now = some st') :
    ∀ sid sess, List.lookup sid st = some (some sess) →
      (now - sess.updatedAt > maxAge → List.lookup sid st' = none)
      ∧ (now - sess.updatedAt < maxAge → List.lookup sid st' = some (some sess)) := by
  have hst' : st' = st.filter (purgeKeeps now) := by
    unfold OAuthSessions.Purge at h
    split at h
    · simp at h
    · injection h with h2
      exact h2.symm
  subst hst'
  intro sid sess hlook
  have hfk := lookup_filter_purgeKeeps st now sid sess hnodup hlook
  constructor
  · intro hold
    refine hfk.1 ?_
    simp only [purgeKeeps, decide_eq_false_iff_not]
    omega
  · intro hyoung
    refine hfk.2 ?_
    simp only [purgeKeeps, decide_eq_true_eq]
    exact hyoung

/-- C8 witness: one pass over a concrete two-session store evicts the
hour-old session and keeps the fresh one unchanged. -/
theorem purge_evicts_old_retains_young_witness :
    List.lookup "oldsid" [("newsid", some freshSession)] = none
    ∧ List.lookup "newsid" [("newsid", some freshSession)] = some (some freshSession) := by
  have h := purge_evicts_old_retains_young agedStore [("newsid", some freshSession)]
    5000 (by decide) (by decide)
  exact ⟨(h "oldsid" staleSession (by decide)).1 (by decide),
         (h "newsid" freshSession (by decide)).2 (by decide)⟩

/-- C9.  As claimed: a poll with the wait parameter absent gets waitTime
zero, so the deadline is the arrival instant, and on an existing
unresolved session the handler checks the state once and answers
100 Continue immediately, without reaching the channel receive. -/
theorem poll_without_wait_answers_continue_immediately
    (sessions : OAuthSessions) (sid : String) (session : OAuthSession) (t : Int)
    (hsid : ¬ sid.length = 0)
    (hget : OAuthSessions.Get sessions sid = (some session, true))
    (htok : session.accessToken = none) (herr : session.error = none) :
    parseWait "" = Except.ok 0
    ∧ handleOAuthPoll sessions sid "" t = PollResult.resp (HttpResponse.error "" 100) := by
  refine ⟨rfl, ?_⟩
  simp only [handleOAuthPoll, if_neg hsid, hget]
  simp [parseWait, pollIteration, htok, herr]

/-- C9 witness: the immediate 100 Continue on the concrete pending store. -/
theorem poll_without_wait_witness :
    handleOAuthPoll startStore sid0 "" 1000 =
      PollResult.resp (HttpResponse.error "" 100) :=
  (poll_without_wait_answers_continue_immediately startStore sid0 pendingSession0 1000
    (by decide) (by decide) rfl rfl).2

/-- C10.  As claimed: a successful AllocateId returns a 24-character id
over the 52-letter alphabet that was not present in the store at the
instant of allocation and is reserved in the store (insert-if-absent,
as a nil placeholder) upon return; the id is the first candidate drawn
whose insert succeeded, every earlier draw having collided with a
present key and been resampled. -/
theorem allocateId_returns_fresh_reserved_letter_id
    (st st' : OAuthSessions) (supply : List (Nat → Nat)) (sid : String)
    (h : OAuthSessions.AllocateId st supply = some (sid, st')) :
    sid.length = 24
    ∧ sidChars.length = 52
    ∧ (∀ c ∈ sid.data, c ∈ sidChars.data)
    ∧ List.lookup sid st = none
    ∧ List.lookup sid st' = some none
    ∧ ∃ pre rdraw post, supply = pre ++ rdraw :: post
        ∧ sid = randomString sidLength sidChars rdraw
        ∧ ∀ rp ∈ pre, (List.lookup (randomString sidLength sidChars rp) st).isSome := by
  obtain ⟨hfresh, hst', pre, rdraw, post, hsup, hsid, hpre⟩ :=
    allocateId_spec st supply sid st' h
  refine ⟨?_, by decide, ?_, hfresh, ?_, pre, rdraw, post, hsup, hsid, hpre⟩
  · rw [hsid, randomString_length]
    rfl
  · rw [hsid]
    exact randomString_chars _ _ _ (by decide)
  · rw [hst', lookup_append_of_none _ _ _ hfresh]
    simp

/-- C10 witness: with the first draw colliding with an occupied id, the
retry returns the second draw, fresh and then reserved. -/
theorem allocateId_witness :
    sid1.length = 24 ∧ List.lookup sid1 collisionStore = none := by
  have h := allocateId_returns_fresh_reserved_letter_id collisionStore
    (collisionStore ++ [(sid1, none)]) [r0, r1] sid1 (by decide)
  exact ⟨h.1, h.2.2.2.1⟩

end Authomato
